import Mathlib

/-!
Shallow embedding of src/configure_nsx_manager.py (pyNSXdeploy).

Python strings are modelled as Lean String; `str.split(sep)` for a
one-character separator is modelled by splitOnChar over the character
list.  `ipaddress.IPv4Address` on a string argument is modelled by
ipv4Parse (four dot-separated ASCII-decimal octets, each at most three
characters, value at most 255, no leading zeros), returning the numeric
value as int() of the address would.  The regex \d of ip_mask_re is
modelled as an ASCII decimal digit.  HTTP traffic is modelled by an
oracle giving the response to the n-th request issued; an HTTP response
body is a String and reading a response stream twice is modelled
explicitly (the second read of a consumed stream yields the empty
string), as http.client behaves.  Connection parameters (manager
address, headers) and the XML payload texts do not influence any claim
and are omitted from the embedded functions.
-/

/-- Model of Python str.split(sep) for a single-character separator. -/
def splitOnChar (sep : Char) : List Char → List (List Char)
  | [] => [[]]
  | c :: cs =>
    let rest := splitOnChar sep cs
    if c = sep then [] :: rest
    else
      match rest with
      | [] => [[c]]
      | r :: rs => (c :: r) :: rs

/-- Python s.split(sep) on Lean strings. -/
def pySplit (s : String) (sep : Char) : List String :=
  (splitOnChar sep s.data).map String.mk

/-- One octet of a dotted-decimal IPv4 address, as ipaddress parses it:
nonempty, ASCII digits only, at most three characters, no leading zero,
value at most 255. -/
def parseOctet (cs : List Char) : Option Nat :=
  if cs = [] then none
  else if !cs.all Char.isDigit then none
  else if 3 < cs.length then none
  else if 1 < cs.length && cs.headD '0' == '0' then none
  else
    let v := cs.foldl (fun a c => 10 * a + (c.toNat - 48)) 0
    if v ≤ 255 then some v else none

/-- Model of ipaddress.IPv4Address on a string, composed with int():
the numeric value of the address, or none when AddressValueError would
be raised. -/
def ipv4Parse (s : String) : Option Nat :=
  match splitOnChar '.' s.data with
  | [a, b, c, d] =>
    match parseOctet a, parseOctet b, parseOctet c, parseOctet d with
    | some x, some y, some z, some w => some (((x * 256 + y) * 256 + z) * 256 + w)
    | _, _, _, _ => none
  | _ => none

/-- ip_valid from the source: true iff IPv4Address(ip_address) does not
raise AddressValueError. -/
def ip_valid (ip_address : String) : Bool :=
  (ipv4Parse ip_address).isSome

/-- re.match of ip_mask_re, the compiled regex of a slash followed by
one or two digits: the match succeeds iff the string starts with a
slash followed by a digit (re.match anchors only at the start, so any
trailing characters are ignored). -/
def ip_mask_re_match (s : String) : Bool :=
  match s.data with
  | c :: d :: _ => c == '/' && d.isDigit
  | _ => false

/-- ip_mask_valid from the source: the regex prefix-match conjoined
with the length bound of three. -/
def ip_mask_valid (mask : String) : Bool :=
  ip_mask_re_match mask && decide (mask.length ≤ 3)

/-- An HTTP response as seen by the script: status code and body. -/
structure HttpResponse where
  status : Nat
  body : String
deriving DecidableEq, Repr

/-- A live response object whose stream can be read; reading consumes
the stream, as with http.client.HTTPResponse.read. -/
structure LiveResponse where
  resp : HttpResponse
  consumed : Bool
deriving DecidableEq, Repr

/-- Model of HTTPResponse.read with no argument: the whole remaining
stream, empty once already consumed. -/
def http_read (l : LiveResponse) : String × LiveResponse :=
  if l.consumed then ("", { l with consumed := true })
  else (l.resp.body, { l with consumed := true })

/-- Exceptions that escape the embedded functions. -/
inductive PyExc where
  | indexError
deriving DecidableEq, Repr

/-- Result of one tuple-returning pool function: whether the HTTP POST
was issued, the returned integer status, and the returned message or
response body. -/
structure PoolOutcome where
  requestIssued : Bool
  status : Int
  message : String
deriving DecidableEq, Repr

/-- Outcome of processing one start-end range string inside the try
block: both endpoints parsed; an AddressValueError (caught by the
source); or an IndexError from ip[1] when the split produced a single
piece (not caught by the source). -/
inductive RangeResult where
  | ok (ip_start ip_end : Nat)
  | addrError
  | indexError
deriving DecidableEq, Repr

/-- One iteration of the range-validation loop body: split on the dash,
parse ip[0], index and parse ip[1]. -/
def processRange (r : String) : RangeResult :=
  let ip := pySplit r '-'
  match ipv4Parse (ip.getD 0 "") with
  | none => .addrError
  | some s =>
    if ip.length ≤ 1 then .indexError
    else
      match ipv4Parse (ip.getD 1 "") with
      | none => .addrError
      | some e => .ok s e

/-- Result of the whole range-validation loop: the accumulated host
count, the range string on which a caught AddressValueError fired, or
an uncaught IndexError. -/
inductive RangeScan where
  | total (host_count : Int)
  | invalid (r : String)
  | crash
deriving DecidableEq, Repr

/-- The range-validation loop of both pool functions, threading the
running host_count. -/
def scan_ranges : List String → Int → RangeScan
  | [], acc => .total acc
  | r :: rest, acc =>
    match processRange r with
    | .ok s e => scan_ranges rest (acc + ((e : Int) - (s : Int) + 1))
    | .addrError => .invalid r
    | .indexError => .crash

/-- The DNS-validation loop of both pool functions: the first entry
that ip_valid rejects, if any. -/
def validate_dns : List String → Option String
  | [] => none
  | r :: rest => if ip_valid r then validate_dns rest else some r

/-- Message of the DNS rejection branch. -/
def dns_err (r : String) : String :=
  "Invalid DNS address in ip_pool_dns " ++ r

/-- Message of the caught invalid-range branch. -/
def range_err (r : String) : String :=
  "invalid IP range in ip_pool_list " ++ r

/-- Message of the VTEP host-count rejection branch. -/
def vtep_count_err (host_count number_of_hosts : Int) : String :=
  "count of ip addresses (" ++ toString host_count
    ++ ") < (number_of_hosts (" ++ toString number_of_hosts ++ ") * 2)"

/-- Message of the controller host-count rejection branch. -/
def ctrl_count_err (host_count : Int) : String :=
  "count of ip addresses (" ++ toString host_count ++ ") < 3"

/-- Message of the mask rejection branch. -/
def mask_err (m : String) : String :=
  "Invalid ip_pool_mask " ++ m

/-- Message of the gateway rejection branch. -/
def gw_err (g : String) : String :=
  "Invalid ip_pool_gateway " ++ g

/-- create_vtep_ip_pool from the source, with the manager address and
headers omitted and the single HTTP exchange supplied by the response
argument.  Validation runs in source order: DNS entries, ranges with
host count, the threshold of twice number_of_hosts, the mask, the
gateway; then the POST is issued and 201 is the success status. -/
def create_vtep_ip_pool (ip_pool_list ip_pool_mask ip_pool_gateway : String)
    (number_of_hosts : Int) (ip_pool_dns dns_suffix : String)
    (response : HttpResponse) : Except PyExc PoolOutcome :=
  let vtep_dns_list := pySplit ip_pool_dns ','
  match validate_dns vtep_dns_list with
  | some r => .ok ⟨false, -1, dns_err r⟩
  | none =>
    let vtep_range := pySplit ip_pool_list ','
    match scan_ranges vtep_range 0 with
    | .crash => .error .indexError
    | .invalid r => .ok ⟨false, -1, range_err r⟩
    | .total host_count =>
      if host_count < 2 * number_of_hosts then
        .ok ⟨false, -1, vtep_count_err host_count number_of_hosts⟩
      else if !ip_mask_valid ip_pool_mask then
        .ok ⟨false, -1, mask_err ip_pool_mask⟩
      else if !ip_valid ip_pool_gateway then
        .ok ⟨false, -1, gw_err ip_pool_gateway⟩
      else if response.status ≠ 201 then
        .ok ⟨true, -1, response.body⟩
      else
        .ok ⟨true, 0, response.body⟩

/-- create_controller_ip_pool from the source: identical to the VTEP
variant except for the flat host-count minimum of three and the pool
name in the payload. -/
def create_controller_ip_pool (ip_pool_list ip_pool_mask ip_pool_gateway : String)
    (ip_pool_dns ip_pool_suffix : String)
    (response : HttpResponse) : Except PyExc PoolOutcome :=
  let vtep_dns_list := pySplit ip_pool_dns ','
  match validate_dns vtep_dns_list with
  | some r => .ok ⟨false, -1, dns_err r⟩
  | none =>
    let vtep_range := pySplit ip_pool_list ','
    match scan_ranges vtep_range 0 with
    | .crash => .error .indexError
    | .invalid r => .ok ⟨false, -1, range_err r⟩
    | .total host_count =>
      if host_count < 3 then
        .ok ⟨false, -1, ctrl_count_err host_count⟩
      else if !ip_mask_valid ip_pool_mask then
        .ok ⟨false, -1, mask_err ip_pool_mask⟩
      else if !ip_valid ip_pool_gateway then
        .ok ⟨false, -1, gw_err ip_pool_gateway⟩
      else if response.status ≠ 201 then
        .ok ⟨true, -1, response.body⟩
      else
        .ok ⟨true, 0, response.body⟩

/-- Result of a cluster-preparation function: a returned status tuple,
or the UnboundLocalError raised at the final return when the loop body
never ran and the response local was never assigned. -/
inductive PrepResult where
  | ok (status : Int) (body : String)
  | unboundLocal
deriving DecidableEq, Repr

/-- Loop of prepare_clusters_for_dfw.  The oracle gives the response to
the n-th request; the second argument counts requests issued so far
(zero at entry).  Returns the morefs a request was issued for, in
order, and the returned value.  On a non-200 status the loop returns
the -1 tuple at once; on success it sleeps five minutes and continues;
after the loop the function reads the response of the last iteration,
which is unbound when the list was empty. -/
def dfw_loop (responses : Nat → HttpResponse) :
    List String → Nat → List String × PrepResult
  | [], i =>
    ([], if i = 0 then .unboundLocal else .ok 0 (responses (i - 1)).body)
  | moref :: rest, i =>
    if (responses i).status ≠ 200 then
      ([moref], .ok (-1) (responses i).body)
    else
      let r := dfw_loop responses rest (i + 1)
      (moref :: r.1, r.2)

/-- prepare_clusters_for_dfw from the source, headers and manager
address omitted. -/
def prepare_clusters_for_dfw (responses : Nat → HttpResponse)
    (cluster_moref_list : List String) : List String × PrepResult :=
  dfw_loop responses cluster_moref_list 0

/-- Loop of prepare_clusters_for_vxlan: the same control flow as the
DFW loop (same endpoint, same status check, same five-minute sleep);
only the payload text differs and payloads are not modelled. -/
def vxlan_loop (responses : Nat → HttpResponse) :
    List String → Nat → List String × PrepResult
  | [], i =>
    ([], if i = 0 then .unboundLocal else .ok 0 (responses (i - 1)).body)
  | moref :: rest, i =>
    if (responses i).status ≠ 200 then
      ([moref], .ok (-1) (responses i).body)
    else
      let r := vxlan_loop responses rest (i + 1)
      (moref :: r.1, r.2)

/-- prepare_clusters_for_vxlan from the source; the dvs moref, VLAN id
and pool id only feed the payload text, which is not modelled. -/
def prepare_clusters_for_vxlan (responses : Nat → HttpResponse)
    (cluster_moref_list : List String)
    (dvs_moref vtep_vlan_id vtep_ip_pool_id : String) :
    List String × PrepResult :=
  vxlan_loop responses cluster_moref_list 0

/-- Observable actions of deploy_nsx_controllers: a deployment POST
carrying a datastore id, or a sleep of the given number of seconds. -/
inductive DeployEvent where
  | request (datastoreId : String)
  | sleep (seconds : Nat)
deriving DecidableEq, Repr

/-- The datastore-list padding of deploy_nsx_controllers: a single
datastore is appended twice, a pair gets its second element appended
once, anything else is left alone. -/
def pad_datastores (l : List String) : List String :=
  if l.length = 1 then l ++ [l.getD 0 "", l.getD 0 ""]
  else if l.length = 2 then l ++ [l.getD 1 ""]
  else l

/-- deploy_nsx_controllers from the source.  get_ds_id stands for the
vCenter datastore-name-to-moref resolution, responses for the three
HTTP exchanges.  The function issues three POSTs using the first three
padded datastore ids with a 600-second sleep after the first and second,
reads each response once into jobid, and at the end returns zero paired
with a second read of the third response stream; no status code is ever
inspected. -/
def deploy_nsx_controllers (controller_datastores : String)
    (get_ds_id : String → String) (responses : Nat → HttpResponse) :
    List DeployEvent × Int × String :=
  let controller_datastore_list := pySplit controller_datastores ','
  let padded := pad_datastores controller_datastore_list
  let controller_datastore_ids := padded.map get_ds_id
  let events := [DeployEvent.request (controller_datastore_ids.getD 0 ""),
                 DeployEvent.sleep 600,
                 DeployEvent.request (controller_datastore_ids.getD 1 ""),
                 DeployEvent.sleep 600,
                 DeployEvent.request (controller_datastore_ids.getD 2 "")]
  let response : LiveResponse := ⟨responses 2, false⟩
  let jobid_read := http_read response
  let final_read := http_read jobid_read.2
  (events, 0, final_read.1)

/-- Form the specification claims for a valid mask: a slash followed by
one or two digits and nothing else, with total length at most three. -/
def mask_claimed_form (s : String) : Bool :=
  (match s.data with
   | c :: rest =>
     c == '/' && decide (1 ≤ rest.length) && decide (rest.length ≤ 2)
       && rest.all Char.isDigit
   | [] => false) && decide (s.length ≤ 3)

/-- What ip_mask_valid actually accepts: a slash, then a digit, then at
most one further character of any kind. -/
def mask_valid_amended (s : String) : Bool :=
  match s.data with
  | c :: d :: rest => c == '/' && d.isDigit && decide (rest.length ≤ 1)
  | _ => false

/-- Inclusive sizes end - start + 1 of the ranges of a list, defined
when every entry splits on a dash into two parseable IPv4 endpoints. -/
def range_sizes : List String → Option (List Int)
  | [] => some []
  | r :: rest =>
    match processRange r with
    | .ok s e => (range_sizes rest).map (fun l => ((e : Int) - (s : Int) + 1) :: l)
    | _ => none

theorem validate_dns_first :
    ∀ (l : List String) (i : Nat) (hi : i < l.length),
      ip_valid (l.get ⟨i, hi⟩) = false →
      (∀ (j : Nat) (hj : j < l.length), j < i → ip_valid (l.get ⟨j, hj⟩) = true) →
      validate_dns l = some (l.get ⟨i, hi⟩)
  | [], i, hi, _, _ => absurd hi (by simp)
  | r :: rest, 0, _, hbad, _ => by
    simp only [List.get] at hbad ⊢
    simp [validate_dns, hbad]
  | r :: rest, i + 1, hi, hbad, hfirst => by
    have hr : ip_valid r = true := by
      have := hfirst 0 (by simp) (Nat.succ_pos i)
      simpa using this
    have ih := validate_dns_first rest i (by simpa using hi)
      (by simpa using hbad)
      (fun j hj hlt => by
        have := hfirst (j + 1) (by simpa using hj) (by omega)
        simpa using this)
    simp only [validate_dns, hr, if_true]
    simpa using ih

theorem scan_ranges_of_sizes :
    ∀ (rs : List String) (sizes : List Int), range_sizes rs = some sizes →
      ∀ acc : Int, scan_ranges rs acc = .total (acc + sizes.sum)
  | [], sizes, h, acc => by
    simp only [range_sizes, Option.some.injEq] at h
    subst h
    simp [scan_ranges]
  | r :: rest, sizes, h, acc => by
    simp only [range_sizes] at h
    cases hp : processRange r with
    | ok s e =>
      rw [hp] at h
      cases hrest : range_sizes rest with
      | none => rw [hrest] at h; simp at h
      | some l =>
        rw [hrest] at h
        simp only [Option.map_some', Option.some.injEq] at h
        subst h
        have ih := scan_ranges_of_sizes rest l hrest (acc + ((e : Int) - (s : Int) + 1))
        simp only [scan_ranges, hp, ih, List.sum_cons]
        ring_nf
    | addrError => rw [hp] at h; simp at h
    | indexError => rw [hp] at h; simp at h

theorem vxlan_loop_eq_dfw_loop (responses : Nat → HttpResponse) :
    ∀ (l : List String) (i : Nat), vxlan_loop responses l i = dfw_loop responses l i
  | [], _ => rfl
  | m :: rest, i => by
    simp only [vxlan_loop, dfw_loop, vxlan_loop_eq_dfw_loop responses rest (i + 1)]

theorem dfw_loop_first_failure (responses : Nat → HttpResponse) :
    ∀ (l : List String) (k i : Nat), i < l.length →
      (responses (k + i)).status ≠ 200 →
      (∀ j, j < i → (responses (k + j)).status = 200) →
      dfw_loop responses l k
        = (l.take (i + 1), .ok (-1) (responses (k + i)).body)
  | [], k, i, hi, _, _ => absurd hi (by simp)
  | m :: rest, k, 0, hi, hfail, hok => by
    rw [Nat.add_zero] at hfail
    simp [dfw_loop, hfail]
  | m :: rest, k, i + 1, hi, hfail, hok => by
    have h0 : (responses k).status = 200 := by simpa using hok 0 (Nat.succ_pos i)
    have ih := dfw_loop_first_failure responses rest (k + 1) i (by simpa using hi)
      (by rw [show k + 1 + i = k + (i + 1) from by omega]; exact hfail)
      (fun j hj => by
        rw [show k + 1 + j = k + (j + 1) from by omega]
        exact hok (j + 1) (by omega))
    simp only [dfw_loop]
    rw [if_neg (by simp [h0])]
    simp only [ih, List.take_succ_cons]
    rw [show k + 1 + i = k + (i + 1) from by omega]

theorem dfw_loop_all_ok (responses : Nat → HttpResponse) :
    ∀ (l : List String) (k : Nat), l ≠ [] →
      (∀ j, j < l.length → (responses (k + j)).status = 200) →
      dfw_loop responses l k
        = (l, .ok 0 (responses (k + l.length - 1)).body)
  | [], _, hne, _ => absurd rfl hne
  | m :: rest, k, _, hok => by
    have h0 : (responses k).status = 200 := by simpa using hok 0 (by simp)
    simp only [dfw_loop]
    rw [if_neg (by simp [h0])]
    cases rest with
    | nil => simp [dfw_loop]
    | cons r' rest' =>
      have ih := dfw_loop_all_ok responses (r' :: rest') (k + 1) (by simp)
        (fun j hj => by
          rw [show k + 1 + j = k + (j + 1) from by omega]
          exact hok (j + 1) (by simpa using hj))
      simp only [ih]
      rw [show k + 1 + (r' :: rest').length - 1
            = k + (m :: r' :: rest').length - 1 from by simp; omega]

theorem dfw_loop_returns_tuple (responses : Nat → HttpResponse) :
    ∀ (l : List String) (k : Nat), l ≠ [] →
      ∃ s b, (dfw_loop responses l k).2 = .ok s b
  | [], _, hne => absurd rfl hne
  | m :: rest, k, _ => by
    by_cases h0 : (responses k).status = 200
    · simp only [dfw_loop]
      rw [if_neg (by simp [h0])]
      cases rest with
      | nil => exact ⟨0, (responses k).body, by simp [dfw_loop]⟩
      | cons r' rest' =>
        obtain ⟨s, b, hb⟩ := dfw_loop_returns_tuple responses (r' :: rest') (k + 1) (by simp)
        exact ⟨s, b, hb⟩
    · exact ⟨-1, (responses k).body, by simp [dfw_loop, h0]⟩

/-- Claim C3, counterexample: the string of a slash, a digit and a
trailing letter is accepted by ip_mask_valid although it is not of the
form the claim describes (a slash followed only by one or two digits),
because re.match only anchors the pattern at the start of the string. -/
theorem ip_mask_valid_accepts_nondigit_tail :
    ip_mask_valid "/1a" = true ∧ mask_claimed_form "/1a" = false := by
  decide

/-- Claim C3, amended: ip_mask_valid accepts exactly the strings of
length two or three whose first character is a slash and whose second
character is a digit; the third character, when present, is
unconstrained. -/
theorem ip_mask_valid_eq_amended (s : String) :
    ip_mask_valid s = mask_valid_amended s := by
  obtain ⟨data⟩ := s
  cases data with
  | nil => rfl
  | cons c tail =>
    cases tail with
    | nil => rfl
    | cons d rest =>
      simp only [ip_mask_valid, ip_mask_re_match, mask_valid_amended, String.length]
      have h4 : decide ((c :: d :: rest).length ≤ 3) = decide (rest.length ≤ 1) :=
        decide_eq_decide.mpr (by simp)
      rw [h4, Bool.and_assoc]

/-- Claim C2: a range entry with no dash separator whose whole text
parses as an IPv4 address makes both pool functions raise an uncaught
IndexError at the ip[1] subscript, instead of returning the negative
status tuple the spec promises; only AddressValueError is caught. -/
theorem pool_range_missing_dash_raises :
    create_vtep_ip_pool "10.0.0.1" "/24" "10.0.0.254" 2 "8.8.8.8" "x.local" ⟨201, "pool-1"⟩
      = .error .indexError
  ∧ create_controller_ip_pool "10.0.0.1" "/24" "10.0.0.254" "8.8.8.8" "x.local" ⟨201, "pool-2"⟩
      = .error .indexError := by
  exact ⟨rfl, rfl⟩

/-- Claim C9: whenever deploy_nsx_controllers returns, it returns the
status zero paired with the empty string, no matter what statuses or
bodies the three deployment responses carried: no status is checked,
and the final read happens on the already-consumed third response
stream. -/
theorem deploy_controllers_status_zero_empty_body
    (controller_datastores : String) (get_ds_id : String → String)
    (responses : Nat → HttpResponse) :
    (deploy_nsx_controllers controller_datastores get_ds_id responses).2 = (0, "") := by
  rfl

/-- Claim C10: on an empty cluster list both preparation functions
reach their final return with the response local never bound and so do
not return a status tuple (an UnboundLocalError is raised); on any
non-empty list they do return a status tuple. -/
theorem prepare_clusters_empty_raises (responses : Nat → HttpResponse)
    (dvs_moref vtep_vlan_id vtep_ip_pool_id : String)
    (clusters : List String) (h : clusters ≠ []) :
    prepare_clusters_for_dfw responses [] = ([], .unboundLocal)
  ∧ prepare_clusters_for_vxlan responses [] dvs_moref vtep_vlan_id vtep_ip_pool_id
      = ([], .unboundLocal)
  ∧ (∃ s b, (prepare_clusters_for_dfw responses clusters).2 = .ok s b)
  ∧ (∃ s b, (prepare_clusters_for_vxlan responses clusters
        dvs_moref vtep_vlan_id vtep_ip_pool_id).2 = .ok s b) := by
  refine ⟨rfl, rfl, dfw_loop_returns_tuple responses clusters 0 h, ?_⟩
  show ∃ s b, (vxlan_loop responses clusters 0).2 = .ok s b
  rw [vxlan_loop_eq_dfw_loop]
  exact dfw_loop_returns_tuple responses clusters 0 h

/-- Witness for claim C10 at a singleton cluster list. -/
theorem prepare_clusters_empty_raises_witness :
    prepare_clusters_for_dfw (fun _ => ⟨200, "ok"⟩) [] = ([], .unboundLocal)
  ∧ prepare_clusters_for_vxlan (fun _ => ⟨200, "ok"⟩) [] "dvs-1" "0" "pool-1"
      = ([], .unboundLocal)
  ∧ (∃ s b, (prepare_clusters_for_dfw (fun _ => ⟨200, "ok"⟩) ["domain-c1"]).2 = .ok s b)
  ∧ (∃ s b, (prepare_clusters_for_vxlan (fun _ => ⟨200, "ok"⟩) ["domain-c1"]
        "dvs-1" "0" "pool-1").2 = .ok s b) :=
  prepare_clusters_empty_raises (fun _ => ⟨200, "ok"⟩) "dvs-1" "0" "pool-1"
    ["domain-c1"] (by decide)

/-- Claim C6: as soon as one request of either preparation loop gets a
status other than 200, the loop returns the -1 tuple at once: requests
are issued exactly for the clusters up to and including the failing
one, and no cluster after it is attempted. -/
theorem prepare_clusters_stop_on_first_failure (responses : Nat → HttpResponse)
    (clusters : List String) (dvs_moref vtep_vlan_id vtep_ip_pool_id : String)
    (i : Nat) (hi : i < clusters.length)
    (hfail : (responses i).status ≠ 200)
    (hok : ∀ j, j < i → (responses j).status = 200) :
    prepare_clusters_for_dfw responses clusters
      = (clusters.take (i + 1), .ok (-1) (responses i).body)
  ∧ prepare_clusters_for_vxlan responses clusters dvs_moref vtep_vlan_id vtep_ip_pool_id
      = (clusters.take (i + 1), .ok (-1) (responses i).body) := by
  have h := dfw_loop_first_failure responses clusters 0 i hi
    (by simpa using hfail) (fun j hj => by simpa using hok j hj)
  constructor
  · simpa [prepare_clusters_for_dfw] using h
  · show vxlan_loop responses clusters 0 = _
    rw [vxlan_loop_eq_dfw_loop]
    simpa using h

/-- Witness for claim C6: the second of three clusters fails, the
third is never requested. -/
theorem prepare_clusters_stop_on_first_failure_witness :
    prepare_clusters_for_dfw
        (fun n => if n = 1 then ⟨500, "err"⟩ else ⟨200, "okbody"⟩)
        ["domain-c1", "domain-c2", "domain-c3"]
      = (["domain-c1", "domain-c2"], .ok (-1) "err")
  ∧ prepare_clusters_for_vxlan
        (fun n => if n = 1 then ⟨500, "err"⟩ else ⟨200, "okbody"⟩)
        ["domain-c1", "domain-c2", "domain-c3"] "dvs-1" "0" "pool-1"
      = (["domain-c1", "domain-c2"], .ok (-1) "err") := by
  have h := prepare_clusters_stop_on_first_failure
    (fun n => if n = 1 then ⟨500, "err"⟩ else ⟨200, "okbody"⟩)
    ["domain-c1", "domain-c2", "domain-c3"] "dvs-1" "0" "pool-1" 1
    (by decide) (by decide)
    (fun j hj => by
      have hj0 : j = 0 := by omega
      subst hj0
      rfl)
  exact ⟨by rw [h.1]; decide, by rw [h.2]; decide⟩

/-- Claim C8: when every request of a preparation loop gets status 200,
the function returns zero paired with the body of the final response
only; the bodies of the earlier responses are never read. -/
theorem prepare_clusters_success_last_body (responses : Nat → HttpResponse)
    (clusters : List String) (dvs_moref vtep_vlan_id vtep_ip_pool_id : String)
    (hne : clusters ≠ [])
    (hok : ∀ j, j < clusters.length → (responses j).status = 200) :
    prepare_clusters_for_dfw responses clusters
      = (clusters, .ok 0 (responses (clusters.length - 1)).body)
  ∧ prepare_clusters_for_vxlan responses clusters dvs_moref vtep_vlan_id vtep_ip_pool_id
      = (clusters, .ok 0 (responses (clusters.length - 1)).body) := by
  have h := dfw_loop_all_ok responses clusters 0 hne (fun j hj => by simpa using hok j hj)
  constructor
  · simpa [prepare_clusters_for_dfw] using h
  · show vxlan_loop responses clusters 0 = _
    rw [vxlan_loop_eq_dfw_loop]
    simpa using h

/-- Witness for claim C8 with two clusters: the second body is
returned, the first is discarded. -/
theorem prepare_clusters_success_last_body_witness :
    prepare_clusters_for_dfw (fun n => ⟨200, if n = 0 then "b0" else "b1"⟩)
        ["domain-c1", "domain-c2"]
      = (["domain-c1", "domain-c2"], .ok 0 "b1")
  ∧ prepare_clusters_for_vxlan (fun n => ⟨200, if n = 0 then "b0" else "b1"⟩)
        ["domain-c1", "domain-c2"] "dvs-1" "0" "pool-1"
      = (["domain-c1", "domain-c2"], .ok 0 "b1") := by
  have h := prepare_clusters_success_last_body
    (fun n => ⟨200, if n = 0 then "b0" else "b1"⟩)
    ["domain-c1", "domain-c2"] "dvs-1" "0" "pool-1" (by decide)
    (fun j hj => rfl)
  exact ⟨by rw [h.1]; decide, by rw [h.2]; decide⟩

/-- Claim C5: a one- or two-element datastore list is padded to exactly
three entries by repeating its last element, and exactly three
deployment requests are issued, one per entry of the padded list in
order, with a 600-second sleep between consecutive requests. -/
theorem deploy_controllers_padding (controller_datastores : String)
    (get_ds_id : String → String) (responses : Nat → HttpResponse)
    (h : (pySplit controller_datastores ',').length = 1
       ∨ (pySplit controller_datastores ',').length = 2) :
    (pad_datastores (pySplit controller_datastores ',')).length = 3
  ∧ pad_datastores (pySplit controller_datastores ',')
      = pySplit controller_datastores ','
          ++ List.replicate (3 - (pySplit controller_datastores ',').length)
               ((pySplit controller_datastores ',').getLastD "")
  ∧ (deploy_nsx_controllers controller_datastores get_ds_id responses).1
      = [.request (get_ds_id ((pad_datastores (pySplit controller_datastores ',')).getD 0 "")),
         .sleep 600,
         .request (get_ds_id ((pad_datastores (pySplit controller_datastores ',')).getD 1 "")),
         .sleep 600,
         .request (get_ds_id ((pad_datastores (pySplit controller_datastores ',')).getD 2 ""))] := by
  obtain h1 | h2 := h
  · obtain ⟨a, ha⟩ := List.length_eq_one.mp h1
    rw [ha]
    refine ⟨by simp [pad_datastores], by simp [pad_datastores], ?_⟩
    simp only [deploy_nsx_controllers, ha]
    simp [pad_datastores]
  · obtain ⟨a, b, hab⟩ := List.length_eq_two.mp h2
    rw [hab]
    refine ⟨by simp [pad_datastores], by simp [pad_datastores], ?_⟩
    simp only [deploy_nsx_controllers, hab]
    simp [pad_datastores]

/-- Witness for claim C5 at a two-element datastore list. -/
theorem deploy_controllers_padding_witness :
    (pad_datastores (pySplit "ds1,ds2" ',')).length = 3
  ∧ pad_datastores (pySplit "ds1,ds2" ',') = ["ds1", "ds2", "ds2"]
  ∧ (deploy_nsx_controllers "ds1,ds2" (fun s => s ++ "-id") (fun _ => ⟨201, "job"⟩)).1
      = [.request "ds1-id", .sleep 600, .request "ds2-id", .sleep 600, .request "ds2-id"] := by
  have h := deploy_controllers_padding "ds1,ds2" (fun s => s ++ "-id")
    (fun _ => ⟨201, "job"⟩) (Or.inr (by decide))
  exact ⟨h.1, by rw [h.2.1]; decide, by rw [h.2.2]; decide⟩

/-- Claim C7: when the DNS list holds an invalid entry, both pool
functions return -1 with a message naming the first invalid entry, and
the HTTP POST is never issued. -/
theorem pool_rejects_first_invalid_dns (ip_pool_list ip_pool_mask ip_pool_gateway : String)
    (number_of_hosts : Int) (ip_pool_dns dns_suffix : String) (response : HttpResponse)
    (i : Nat) (hi : i < (pySplit ip_pool_dns ',').length)
    (hbad : ip_valid ((pySplit ip_pool_dns ',').get ⟨i, hi⟩) = false)
    (hfirst : ∀ (j : Nat) (hj : j < (pySplit ip_pool_dns ',').length), j < i →
        ip_valid ((pySplit ip_pool_dns ',').get ⟨j, hj⟩) = true) :
    create_vtep_ip_pool ip_pool_list ip_pool_mask ip_pool_gateway number_of_hosts
        ip_pool_dns dns_suffix response
      = .ok ⟨false, -1, dns_err ((pySplit ip_pool_dns ',').get ⟨i, hi⟩)⟩
  ∧ create_controller_ip_pool ip_pool_list ip_pool_mask ip_pool_gateway
        ip_pool_dns dns_suffix response
      = .ok ⟨false, -1, dns_err ((pySplit ip_pool_dns ',').get ⟨i, hi⟩)⟩ := by
  have h := validate_dns_first (pySplit ip_pool_dns ',') i hi hbad hfirst
  constructor
  · simp [create_vtep_ip_pool, h]
  · simp [create_controller_ip_pool, h]

/-- Witness for claim C7: the second of three DNS entries is bad and is
the one named. -/
theorem pool_rejects_first_invalid_dns_witness :
    create_vtep_ip_pool "10.0.0.1-10.0.0.4" "/24" "10.0.0.254" 2
        "8.8.8.8,badip,1.2.3.4" "x.local" ⟨201, "pool-1"⟩
      = .ok ⟨false, -1, "Invalid DNS address in ip_pool_dns badip"⟩
  ∧ create_controller_ip_pool "10.0.0.1-10.0.0.4" "/24" "10.0.0.254"
        "8.8.8.8,badip,1.2.3.4" "x.local" ⟨201, "pool-2"⟩
      = .ok ⟨false, -1, "Invalid DNS address in ip_pool_dns badip"⟩ := by
  have h := pool_rejects_first_invalid_dns "10.0.0.1-10.0.0.4" "/24" "10.0.0.254" 2
    "8.8.8.8,badip,1.2.3.4" "x.local" ⟨201, "pool-1"⟩ 1 (by decide) (by decide)
    (fun j hj hlt => by
      have hj0 : j = 0 := by omega
      subst hj0
      rfl)
  refine ⟨by rw [h.1]; rfl, ?_⟩
  have h2 := pool_rejects_first_invalid_dns "10.0.0.1-10.0.0.4" "/24" "10.0.0.254" 2
    "8.8.8.8,badip,1.2.3.4" "x.local" ⟨201, "pool-2"⟩ 1 (by decide) (by decide)
    (fun j hj hlt => by
      have hj0 : j = 0 := by omega
      subst hj0
      rfl)
  rw [h2.2]
  rfl

/-- Claim C4: when every DNS entry is valid and every range splits into
two parseable IPv4 endpoints, the host count is the sum over ranges of
end minus start plus one; create_vtep_ip_pool returns the -1 host-count
message without issuing a request exactly when that sum is below twice
number_of_hosts, and otherwise moves past the host-count check (any
later rejection is the mask or gateway check); create_controller_ip_pool
does the same against the flat minimum of three. -/
theorem pool_host_count_threshold (ip_pool_list ip_pool_mask ip_pool_gateway : String)
    (number_of_hosts : Int) (ip_pool_dns dns_suffix : String) (response : HttpResponse)
    (sizes : List Int)
    (hdns : validate_dns (pySplit ip_pool_dns ',') = none)
    (hsz : range_sizes (pySplit ip_pool_list ',') = some sizes) :
    (sizes.sum < 2 * number_of_hosts →
       create_vtep_ip_pool ip_pool_list ip_pool_mask ip_pool_gateway number_of_hosts
           ip_pool_dns dns_suffix response
         = .ok ⟨false, -1, vtep_count_err sizes.sum number_of_hosts⟩)
  ∧ (2 * number_of_hosts ≤ sizes.sum →
       ∃ out, create_vtep_ip_pool ip_pool_list ip_pool_mask ip_pool_gateway number_of_hosts
           ip_pool_dns dns_suffix response = .ok out
         ∧ (out.requestIssued = true ∨ out.message = mask_err ip_pool_mask
              ∨ out.message = gw_err ip_pool_gateway))
  ∧ (sizes.sum < 3 →
       create_controller_ip_pool ip_pool_list ip_pool_mask ip_pool_gateway
           ip_pool_dns dns_suffix response
         = .ok ⟨false, -1, ctrl_count_err sizes.sum⟩)
  ∧ (3 ≤ sizes.sum →
       ∃ out, create_controller_ip_pool ip_pool_list ip_pool_mask ip_pool_gateway
           ip_pool_dns dns_suffix response = .ok out
         ∧ (out.requestIssued = true ∨ out.message = mask_err ip_pool_mask
              ∨ out.message = gw_err ip_pool_gateway)) := by
  have hscan := scan_ranges_of_sizes (pySplit ip_pool_list ',') sizes hsz 0
  rw [zero_add] at hscan
  refine ⟨?_, ?_, ?_, ?_⟩
  · intro hlt
    simp [create_vtep_ip_pool, hdns, hscan, hlt]
  · intro hge
    simp only [create_vtep_ip_pool, hdns, hscan]
    rw [if_neg (by omega)]
    cases hm : ip_mask_valid ip_pool_mask with
    | false =>
      exact ⟨⟨false, -1, mask_err ip_pool_mask⟩, by rfl, Or.inr (Or.inl rfl)⟩
    | true =>
      cases hg : ip_valid ip_pool_gateway with
      | false =>
        exact ⟨⟨false, -1, gw_err ip_pool_gateway⟩, by rfl, Or.inr (Or.inr rfl)⟩
      | true =>
        by_cases hs : response.status = 201
        · exact ⟨⟨true, 0, response.body⟩, by simp [hs], Or.inl rfl⟩
        · exact ⟨⟨true, -1, response.body⟩, by simp [hs], Or.inl rfl⟩
  · intro hlt
    simp [create_controller_ip_pool, hdns, hscan, hlt]
  · intro hge
    simp only [create_controller_ip_pool, hdns, hscan]
    rw [if_neg (by omega)]
    cases hm : ip_mask_valid ip_pool_mask with
    | false =>
      exact ⟨⟨false, -1, mask_err ip_pool_mask⟩, by rfl, Or.inr (Or.inl rfl)⟩
    | true =>
      cases hg : ip_valid ip_pool_gateway with
      | false =>
        exact ⟨⟨false, -1, gw_err ip_pool_gateway⟩, by rfl, Or.inr (Or.inr rfl)⟩
      | true =>
        by_cases hs : response.status = 201
        · exact ⟨⟨true, 0, response.body⟩, by simp [hs], Or.inl rfl⟩
        · exact ⟨⟨true, -1, response.body⟩, by simp [hs], Or.inl rfl⟩

/-- Witness for claim C4 at the example of the spec: number_of_hosts
two with a three-address range fails the VTEP check, while the
controller minimum of three is met by the same range. -/
theorem pool_host_count_threshold_witness :
    create_vtep_ip_pool "192.168.0.1-192.168.0.3" "/24" "192.168.0.254" 2
        "8.8.8.8" "x.local" ⟨201, "pool-1"⟩
      = .ok ⟨false, -1, "count of ip addresses (3) < (number_of_hosts (2) * 2)"⟩
  ∧ ∃ out, create_controller_ip_pool "192.168.0.1-192.168.0.3" "/24" "192.168.0.254"
        "8.8.8.8" "x.local" ⟨201, "pool-2"⟩ = .ok out
      ∧ (out.requestIssued = true ∨ out.message = mask_err "/24"
           ∨ out.message = gw_err "192.168.0.254") := by
  have h := pool_host_count_threshold "192.168.0.1-192.168.0.3" "/24" "192.168.0.254" 2
    "8.8.8.8" "x.local" ⟨201, "pool-1"⟩ [3] rfl rfl
  have h2 := pool_host_count_threshold "192.168.0.1-192.168.0.3" "/24" "192.168.0.254" 2
    "8.8.8.8" "x.local" ⟨201, "pool-2"⟩ [3] rfl rfl
  refine ⟨?_, h2.2.2.2 (by decide)⟩
  rw [h.1 (by decide)]
  rfl

/-- Claim C1, counterexample: a list holding a range whose end address
is numerically below its start address is not rejected when another
range makes the summed count large enough; validation succeeds, the
POST is issued and the function returns status zero. -/
theorem vtep_reversed_range_passes_validation :
    processRange "10.0.0.10-10.0.0.5" = .ok 167772170 167772165
  ∧ (167772165 : Nat) < 167772170
  ∧ create_vtep_ip_pool "10.0.0.1-10.0.0.100,10.0.0.10-10.0.0.5" "/24" "10.0.0.254" 2
        "8.8.8.8" "x.local" ⟨201, "pool-1"⟩
      = .ok ⟨true, 0, "pool-1"⟩ :=
  ⟨rfl, by norm_num, rfl⟩

/-- Claim C1, amended: no per-range end-versus-start check exists; a
reversed range only contributes end minus start plus one, a
non-positive amount, to the host count.  Hence a list whose sole range
is reversed is rejected, by the minimum-host-count check, in both pool
functions (for the VTEP pool whenever number_of_hosts is at least one),
while a reversed range inside a larger list can pass validation. -/
theorem single_reversed_range_rejected (ip_pool_list ip_pool_mask ip_pool_gateway : String)
    (r s e : String) (a b : Nat) (number_of_hosts : Int)
    (ip_pool_dns dns_suffix : String) (response : HttpResponse)
    (hdns : validate_dns (pySplit ip_pool_dns ',') = none)
    (hone : pySplit ip_pool_list ',' = [r])
    (hdash : pySplit r '-' = [s, e])
    (ha : ipv4Parse s = some a) (hb : ipv4Parse e = some b)
    (hrev : b < a) (hn : 1 ≤ number_of_hosts) :
    create_vtep_ip_pool ip_pool_list ip_pool_mask ip_pool_gateway number_of_hosts
        ip_pool_dns dns_suffix response
      = .ok ⟨false, -1, vtep_count_err ((b : Int) - (a : Int) + 1) number_of_hosts⟩
  ∧ create_controller_ip_pool ip_pool_list ip_pool_mask ip_pool_gateway
        ip_pool_dns dns_suffix response
      = .ok ⟨false, -1, ctrl_count_err ((b : Int) - (a : Int) + 1)⟩ := by
  have hpr : processRange r = .ok a b := by
    simp [processRange, hdash, ha, hb]
  have hscan : scan_ranges (pySplit ip_pool_list ',') 0
      = .total ((b : Int) - (a : Int) + 1) := by
    rw [hone]
    simp [scan_ranges, hpr]
  have hab : (b : Int) - (a : Int) + 1 ≤ 0 := by
    have hba : (b : Int) < (a : Int) := by exact_mod_cast hrev
    omega
  constructor
  · simp only [create_vtep_ip_pool, hdns, hscan]
    rw [if_pos (by omega)]
  · simp only [create_controller_ip_pool, hdns, hscan]
    rw [if_pos (by omega)]

/-- Witness for the amended claim C1: a single reversed range is
rejected by both pool functions through the host-count check. -/
theorem single_reversed_range_rejected_witness :
    create_vtep_ip_pool "10.0.0.10-10.0.0.1" "/24" "10.0.0.254" 2
        "8.8.8.8" "x.local" ⟨201, "pool-1"⟩
      = .ok ⟨false, -1, "count of ip addresses (-8) < (number_of_hosts (2) * 2)"⟩
  ∧ create_controller_ip_pool "10.0.0.10-10.0.0.1" "/24" "10.0.0.254"
        "8.8.8.8" "x.local" ⟨201, "pool-1"⟩
      = .ok ⟨false, -1, "count of ip addresses (-8) < 3"⟩ := by
  have h := single_reversed_range_rejected "10.0.0.10-10.0.0.1" "/24" "10.0.0.254"
    "10.0.0.10-10.0.0.1" "10.0.0.10" "10.0.0.1" 167772170 167772161 2
    "8.8.8.8" "x.local" ⟨201, "pool-1"⟩ rfl rfl rfl rfl rfl (by norm_num) (by norm_num)
  exact ⟨by rw [h.1]; rfl, by rw [h.2]; rfl⟩
